import Mathlib

/-!
Shallow embedding of the SmartCut Pro license activation service
(`lib/utils/license.ts`, `src/pages/api/activate.ts`, `src/pages/api/verify.ts`,
the admin revoke endpoint and `database/schema.sql`).

Conventions of the embedding:
* JavaScript strings are Lean `String`s; helpers (`split('-')`, `trim`,
  `toUpperCase`, the key-format regexes) are re-implemented structurally on
  `List Char` so that every definition is executable and kernel-reducible.
* A request-body field that may be absent or not a string is an
  `Option String`; JavaScript falsiness of a string is `= ""`.
* Timestamps are unix seconds (`Nat`); `CURRENT_TIMESTAMP` and `Date.now()`
  are the explicit `now` parameter threaded through each handler.
* The PostgreSQL store is a `DB` value: a list of activation rows and a list
  of refunded-license rows; each SQL statement of the source becomes a pure
  function on `DB`.
* The Payhip authenticity oracle is an input: the handler is a deterministic
  function of the oracle's response.
* The HMAC-SHA256 signature of a JWT is modelled injectively as the pair of
  the signed payload and the secret.
-/

namespace SmartCut

/-! ### String helpers (JavaScript semantics) -/

/-- Model of JavaScript `str.split('-')` on the character list:
`"" ↦ [""]`, `"a--b" ↦ ["a","","b"]`, separators at the ends produce empty
segments, exactly as `String.prototype.split` with a one-character separator. -/
def splitDash : List Char → List (List Char)
  | [] => [[]]
  | c :: rest =>
    let r := splitDash rest
    if c = '-' then [] :: r
    else
      match r with
      | [] => [[c]]
      | h :: t => (c :: h) :: t

/-- Segments of a license key, as produced by `licenseKey.split('-')`. -/
def keySegments (s : String) : List String :=
  (splitDash s.data).map fun l => String.mk l

/-- Model of JavaScript `toUpperCase` (ASCII, which is all the source uses). -/
def upper (s : String) : String :=
  String.mk (s.data.map Char.toUpper)

/-- True for the whitespace characters JavaScript `trim` removes that can
occur in the source's inputs. -/
def isWs (c : Char) : Bool :=
  c = ' ' || c = '\t' || c = '\n' || c = '\r'

/-- Model of JavaScript `str.trim()`. -/
def trimStr (s : String) : String :=
  String.mk (((s.data.dropWhile isWs).reverse.dropWhile isWs).reverse)

/-- Model of `licenseKey.startsWith('TRIAL-')`. -/
def startsTrial (s : String) : Bool :=
  s.data.take 6 == "TRIAL-".data

/-- Model of JavaScript `a || b` for two possibly-absent strings
(`undefined` and `""` are falsy). -/
def jsOr (a b : Option String) : Option String :=
  match a with
  | some s => if s = "" then b else some s
  | none => b

/-- Model of JavaScript `a || d` where `d` is a present string. -/
def jsOrD (a : Option String) (d : String) : String :=
  match a with
  | some s => if s = "" then d else s
  | none => d

/-! ### `lib/utils/license.ts` — LICENSE_CONFIG and the key resolver -/

structure TypeConfig where
  features : List String
  max_vehicles : Nat
deriving Repr, DecidableEq

structure ProductTypes where
  types : List (String × TypeConfig)
deriving Repr, DecidableEq

/-- The `photobatchpro` entry of `LICENSE_CONFIG`. -/
def photobatchproTypes : ProductTypes :=
  { types :=
      [("PERSONAL", { features := ["basic_rename", "basic_exif", "find_duplicates"],
                      max_vehicles := 0 }),
       ("PRO", { features := ["basic_rename", "basic_exif", "find_duplicates",
                              "format_convert", "resize", "watermark"],
                 max_vehicles := 0 }),
       ("ENTERPRISE", { features := ["basic_rename", "basic_exif", "find_duplicates",
                                     "format_convert", "resize", "watermark",
                                     "batch_process", "advanced_filters"],
                        max_vehicles := 0 })] }

/-- The `vehiclevaultpro` entry of `LICENSE_CONFIG`. -/
def vehiclevaultproTypes : ProductTypes :=
  { types :=
      [("PERSONAL", { features := ["vehicle_management", "fuel_tracking",
                                   "service_records", "basic_dashboard"],
                      max_vehicles := 1 }),
       ("PRO", { features := ["vehicle_management", "fuel_tracking",
                              "service_records", "basic_dashboard",
                              "data_export", "advanced_reports"],
                 max_vehicles := 5 }),
       ("LIFETIME", { features := ["vehicle_management", "fuel_tracking",
                                   "service_records", "basic_dashboard",
                                   "data_export", "advanced_reports",
                                   "priority_support"],
                      max_vehicles := 999 })] }

/-- Lookup `LICENSE_CONFIG[productId]`: only the two keys above exist. -/
def LICENSE_CONFIG (productId : String) : Option ProductTypes :=
  if productId = "photobatchpro" then some photobatchproTypes
  else if productId = "vehiclevaultpro" then some vehiclevaultproTypes
  else none

/-- Lookup `config.types[t]`. -/
def lookupType (cfg : ProductTypes) (t : String) : Option TypeConfig :=
  (cfg.types.find? fun p => p.1 == t).map Prod.snd

/-- Model of `getLicenseTypeFromKey` (`lib/utils/license.ts`): fewer than 3
dash-segments is a trial/default branch, otherwise the uppercased last segment
is looked up in the product's type table with a `'PERSONAL'` fallback. -/
def getLicenseTypeFromKey (licenseKey productId : String) : String :=
  let parts := keySegments licenseKey
  if parts.length < 3 then
    if startsTrial licenseKey then "TRIAL" else "PERSONAL"
  else
    let t := upper (parts.getLastD "")
    match LICENSE_CONFIG productId with
    | some cfg =>
      match lookupType cfg t with
      | some _ => t
      | none => "PERSONAL"
    | none => "PERSONAL"

structure LicenseInfo where
  license_type : String
  expiry_date : Option String
  features : List String
  product_id : String
deriving Repr, DecidableEq

/-- Model of `getLicenseInfoFromKey` (`lib/utils/license.ts`). The
`typeConfig.features` access in the non-trial branch is modelled with a `[]`
default for the (unreachable) case of a type missing from the table. -/
def getLicenseInfoFromKey (licenseKey productId : String) : LicenseInfo :=
  let licenseType := getLicenseTypeFromKey licenseKey productId
  match LICENSE_CONFIG productId with
  | none =>
    { license_type := "TRIAL", expiry_date := none,
      features := ["basic_rename", "basic_exif", "find_duplicates"],
      product_id := productId }
  | some cfg =>
    if licenseType = "TRIAL" then
      { license_type := "TRIAL", expiry_date := none,
        features := ["basic_rename", "basic_exif", "find_duplicates"],
        product_id := productId }
    else
      { license_type := licenseType, expiry_date := none,
        features := (match lookupType cfg licenseType with
                     | some tc => tc.features
                     | none => []),
        product_id := productId }

/-- Model of `isValidLicenseKeyFormat`: the regex `/^[A-Z0-9-]{10,}$/i`. -/
def isValidLicenseKeyFormat (s : String) : Bool :=
  10 ≤ s.data.length && s.data.all fun c => c.isAlphanum || c = '-'

/-- Model of the `verify.ts` key regex `/^[A-Z0-9-]+$/i`. -/
def keyPatternOk (s : String) : Bool :=
  s.data ≠ [] && s.data.all fun c => c.isAlphanum || c = '-'

/-- Model of `calculateOfflineExpiry(days)` as a unix-seconds deadline
(`now + days · 86400`). -/
def calculateOfflineExpiry (days now : Nat) : Nat :=
  now + days * 86400

/-! ### `lib/utils/license.ts` — the JWT token codec -/

/-- The claims object `jwt.sign` serialises. `generateActivationToken` puts
custom `expiry` and `iat` fields in the payload; the registered JWT `exp`
claim is a distinct field that the source never sets (no `expiresIn` option),
hence `exp : Option Nat`. -/
structure Payload where
  license_key : String
  machine_id : String
  product_id : String
  expiry : Nat
  iat : Nat
  exp : Option Nat
deriving Repr, DecidableEq

/-- The HMAC-SHA256 signature, modelled injectively as (payload, secret). -/
def mkSig (p : Payload) (secret : String) : Payload × String :=
  (p, secret)

structure Token where
  payload : Payload
  sig : Payload × String
deriving Repr, DecidableEq

/-- Model of `generateActivationToken`: throws (`Except.error`) when
`process.env.JWT_SECRET` is unset, otherwise signs the payload with HS256. -/
def generateActivationToken (licenseKey machineId productId : String)
    (expiryDays : Nat) (secret : Option String) (now : Nat) :
    Except String Token :=
  match secret with
  | none => .error "JWT_SECRET not configured"
  | some s =>
    let payload : Payload :=
      { license_key := licenseKey, machine_id := machineId,
        product_id := productId,
        expiry := now + expiryDays * 24 * 60 * 60,
        iat := now, exp := none }
    .ok { payload := payload, sig := mkSig payload s }

structure TokenVerifyResult where
  valid : Bool
  payload : Option Payload
  error : Option String
deriving Repr, DecidableEq

/-- Model of `verifyActivationToken`. `jwt.verify` itself rejects a bad
signature (caught as `invalid signature`) and an expired registered `exp`
claim (caught as `jwt expired`); the source then re-checks `payload.exp`
against `now` and returns `Token expired`. A payload without an `exp` field
is never checked against the clock. -/
def verifyActivationToken (t : Token) (secret : Option String) (now : Nat) :
    TokenVerifyResult :=
  match secret with
  | none => { valid := false, payload := none, error := some "JWT_SECRET not configured" }
  | some s =>
    if t.sig ≠ mkSig t.payload s then
      { valid := false, payload := none, error := some "invalid signature" }
    else
      match t.payload.exp with
      | some e =>
        if e ≤ now then
          { valid := false, payload := none, error := some "jwt expired" }
        else if e < now then
          { valid := false, payload := none, error := some "Token expired" }
        else
          { valid := true, payload := some t.payload, error := none }
      | none => { valid := true, payload := some t.payload, error := none }

/-! ### `src/config/products.ts` -/

structure Product where
  id : String
  name : String
  payhipProductId : String
deriving Repr, DecidableEq

/-- The `PRODUCTS` array (fields the handlers consume). -/
def PRODUCTS : List Product :=
  [{ id := "photobatchpro", name := "PhotoBatchPro", payhipProductId := "Xsm5Y" },
   { id := "smartcut-pro", name := "SmartCut Pro", payhipProductId := "sta2v" },
   { id := "vehiclevault-pro", name := "VehicleVault Pro", payhipProductId := "veh2v" },
   { id := "cutting-optimization-pro", name := "Cutting Optimization Pro",
     payhipProductId := "sta2v" }]

def DEFAULT_PRODUCT_ID : String := "photobatchpro"

/-- Model of `PRODUCTS.find((p) => p.id === pid)`. -/
def findProduct (pid : String) : Option Product :=
  PRODUCTS.find? fun p => p.id == pid

/-! ### `database/schema.sql` — the relational store -/

/-- One row of the `activations` table. -/
structure Activation where
  id : Nat
  license_key : String
  product_id : String
  machine_id : String
  customer_email : Option String
  activated_at : Nat
  last_verified_at : Option Nat
  offline_expiry : Nat
  status : String
deriving Repr, DecidableEq

/-- One row of the `refunded_licenses` table. -/
structure RefundedLicense where
  license_key : String
  email : Option String
  reason : Option String
  refunded_at : Nat
deriving Repr, DecidableEq

/-- The store: both tables plus the id sequence for inserts. -/
structure DB where
  activations : List Activation
  refunded : List RefundedLicense
  nextId : Nat
deriving Repr, DecidableEq

/-- Rows of `SELECT * FROM refunded_licenses WHERE license_key = $1`. -/
def refundsFor (db : DB) (key : String) : List RefundedLicense :=
  db.refunded.filter fun r => r.license_key == key

/-- Model of `queryOne(SELECT * FROM refunded_licenses WHERE license_key = $1
ORDER BY refunded_at DESC LIMIT 1)`. -/
def latestRefund (db : DB) (key : String) : Option RefundedLicense :=
  (refundsFor db key).foldl
    (fun acc r =>
      match acc with
      | none => some r
      | some a => if a.refunded_at < r.refunded_at then some r else some a)
    none

/-- Rows of `SELECT * FROM activations WHERE license_key = $1 AND
status = 'active'`. -/
def activeRows (db : DB) (key : String) : List Activation :=
  db.activations.filter fun a => a.license_key == key && a.status == "active"

/-- Count of currently-Active rows for a key. -/
def activeCount (db : DB) (key : String) : Nat :=
  (activeRows db key).length

/-- Model of `queryOne(SELECT * FROM activations WHERE license_key = $1 AND
machine_id = $2)`; the `unique_machine_license` constraint makes the row
unique, so the first match is the row. -/
def findActivation (db : DB) (key machine : String) : Option Activation :=
  (db.activations.filter fun a => a.license_key == key && a.machine_id == machine).head?

/-- Model of the re-activation `UPDATE activations SET last_verified_at =
CURRENT_TIMESTAMP, offline_expiry = CURRENT_TIMESTAMP + INTERVAL 'g days',
status = 'active' WHERE id = $1`. -/
def updateActivationRow (db : DB) (rowId : Nat) (graceDays now : Nat) : DB :=
  { db with
    activations := db.activations.map fun a =>
      if a.id == rowId then
        { a with last_verified_at := some now,
                 offline_expiry := calculateOfflineExpiry graceDays now,
                 status := "active" }
      else a }

/-- Model of the `INSERT INTO activations (license_key, product_id,
machine_id, customer_email, offline_expiry, ...)` statement; `activated_at`
and `status` take their schema defaults, `last_verified_at` stays NULL. -/
def insertActivation (db : DB) (key pid machine : String)
    (email : Option String) (graceDays now : Nat) : DB :=
  { db with
    activations := db.activations ++
      [{ id := db.nextId, license_key := key, product_id := pid,
         machine_id := machine, customer_email := email,
         activated_at := now, last_verified_at := none,
         offline_expiry := calculateOfflineExpiry graceDays now,
         status := "active" }],
    nextId := db.nextId + 1 }

/-! ### Request, oracle and environment inputs -/

/-- The fields of `req.body` the activate handlers read. A field that is
absent or not a string is `none`. -/
structure ActivateRequest where
  licenseKey : Option String
  productId : Option String
  machineId : Option String
deriving Repr, DecidableEq

/-- The decoded Payhip response: `isPayhipValid` is
`data.success === true || (data.data && data.data.enabled === true)`. -/
structure PayhipResp where
  success : Bool
  data_enabled : Option Bool
  customer_email : Option String
  message : Option String
deriving Repr, DecidableEq

def oracleValid (o : PayhipResp) : Bool :=
  o.success || o.data_enabled == some true

/-- The environment variables the handlers consume. `maxActivations` and
`graceDays` stand for `parseInt(… || '3')` and `parseInt(… || '30')`. -/
structure Env where
  payhipApiKey : Option String
  jwtSecret : Option String
  adminSecret : Option String
  maxActivations : Nat
  graceDays : Nat
deriving Repr, DecidableEq

/-- JavaScript truthiness of a possibly-absent string. -/
def jsTruthy (a : Option String) : Bool :=
  match a with
  | some s => s ≠ ""
  | none => false

/-! ### `src/pages/api/activate.ts` — both handler versions -/

structure ActivateResult where
  status : Nat
  success : Bool
  message : String
  error : Option String
  license_info : Option LicenseInfo
  activation_token : Option Token
  offline_expiry : Option Nat
deriving Repr, DecidableEq

/-- A failure response of the activate handlers. -/
def actFail (st : Nat) (msg : String) (err : Option String) : ActivateResult :=
  { status := st, success := false, message := msg, error := err,
    license_info := none, activation_token := none, offline_expiry := none }

/-- The revoked-license message of activate/verify/revoke. -/
def revokedMsg (reason : Option String) : String :=
  "License revoked: " ++ jsOrD reason "REFUND" ++ ". Please purchase a new license."

/-- Model of the first activate handler in `src/pages/api/activate.ts`
(POST path; the Payhip response is the `oracle` input). Returns the JSON
response together with the store after the call. -/
def activateV1 (env : Env) (req : ActivateRequest) (oracle : PayhipResp)
    (db : DB) (now : Nat) : ActivateResult × DB :=
  if ¬ jsTruthy req.licenseKey then
    (actFail 400 "License key is required" none, db)
  else
    match req.machineId with
    | none => (actFail 400 "Machine ID is required" none, db)
    | some machineId =>
      if machineId = "" then (actFail 400 "Machine ID is required" none, db)
      else
        let cleanKey := upper (trimStr ((req.licenseKey).getD ""))
        if ¬ isValidLicenseKeyFormat cleanKey then
          (actFail 400 "Invalid license key format" none, db)
        else
          let productIdToUse := jsOrD req.productId DEFAULT_PRODUCT_ID
          match findProduct productIdToUse with
          | none => (actFail 400 "Invalid product ID" none, db)
          | some _ =>
            if ¬ jsTruthy env.payhipApiKey then
              (actFail 500 "Server configuration error" none, db)
            else if ¬ oracleValid oracle then
              (actFail 400 (jsOrD oracle.message "Invalid license key") none, db)
            else
              match latestRefund db cleanKey with
              | some r =>
                (actFail 403 (revokedMsg r.reason) (some "LICENSE_REVOKED"), db)
              | none =>
                let act := activeRows db cleanKey
                if env.maxActivations ≤ act.length then
                  (actFail 403
                    ("This license is already activated on " ++
                      Nat.repr act.length ++ " device(s). Maximum is " ++
                      Nat.repr env.maxActivations ++ ".")
                    (some "DEVICE_LIMIT_EXCEEDED"), db)
                else
                  let db' :=
                    match findActivation db cleanKey machineId with
                    | some a => updateActivationRow db a.id env.graceDays now
                    | none =>
                      insertActivation db cleanKey productIdToUse machineId
                        (jsOr oracle.customer_email none) env.graceDays now
                  match generateActivationToken cleanKey machineId productIdToUse
                      env.graceDays env.jwtSecret now with
                  | .error _ =>
                    (actFail 500 "Activation failed due to server error" none, db')
                  | .ok tok =>
                    ({ status := 200, success := true,
                       message := "License activated successfully",
                       error := none,
                       license_info := some (getLicenseInfoFromKey cleanKey productIdToUse),
                       activation_token := some tok,
                       offline_expiry := some (calculateOfflineExpiry env.graceDays now) },
                     db')

/-- Model of the second ("CORS Fix") activate handler in
`src/pages/api/activate.ts` (POST path). It trims but does not uppercase the
key, bounds its length, reports an oracle rejection with HTTP 200, and skips
the device-limit rejection when the requesting machine is already among the
active machine ids. -/
def activateCors (env : Env) (req : ActivateRequest) (oracle : PayhipResp)
    (db : DB) (now : Nat) : ActivateResult × DB :=
  if ¬ jsTruthy req.licenseKey then
    (actFail 400 "License key is required" none, db)
  else
    match req.machineId with
    | none => (actFail 400 "Machine ID is required" none, db)
    | some machineId =>
      if machineId = "" then (actFail 400 "Machine ID is required" none, db)
      else
        let cleanKey := trimStr ((req.licenseKey).getD "")
        if 50 < cleanKey.length then (actFail 400 "Key too long" none, db)
        else if ¬ isValidLicenseKeyFormat cleanKey then
          (actFail 400 "Invalid license key format" none, db)
        else
          let productIdToUse := jsOrD req.productId DEFAULT_PRODUCT_ID
          match findProduct productIdToUse with
          | none => (actFail 400 "Invalid product ID" none, db)
          | some prod =>
            if ¬ jsTruthy env.payhipApiKey then
              (actFail 500 "Server configuration error" none, db)
            else if ¬ oracleValid oracle then
              (actFail 200
                (jsOrD oracle.message
                  ("License not found or invalid for " ++ prod.name)) none, db)
            else
              match latestRefund db cleanKey with
              | some r =>
                (actFail 403 (revokedMsg r.reason) (some "LICENSE_REVOKED"), db)
              | none =>
                let act := activeRows db cleanKey
                let existingMachineIds := act.map fun a => a.machine_id
                if env.maxActivations ≤ act.length ∧
                    machineId ∉ existingMachineIds then
                  (actFail 403
                    ("This license is already activated on " ++
                      Nat.repr env.maxActivations ++ " device(s). Maximum is " ++
                      Nat.repr env.maxActivations ++ ".")
                    (some "DEVICE_LIMIT_EXCEEDED"), db)
                else
                  let db' :=
                    match findActivation db cleanKey machineId with
                    | some a => updateActivationRow db a.id env.graceDays now
                    | none =>
                      insertActivation db cleanKey productIdToUse machineId
                        (jsOr oracle.customer_email none) env.graceDays now
                  match generateActivationToken cleanKey machineId productIdToUse
                      env.graceDays env.jwtSecret now with
                  | .error _ =>
                    (actFail 500 "Activation failed due to server error" none, db')
                  | .ok tok =>
                    ({ status := 200, success := true,
                       message := "License activated successfully",
                       error := none,
                       license_info := some (getLicenseInfoFromKey cleanKey productIdToUse),
                       activation_token := some tok,
                       offline_expiry := some (calculateOfflineExpiry env.graceDays now) },
                     db')

/-! ### `src/pages/api/verify.ts` — the current (third) handler -/

structure VerifyRequest where
  licenseKey : Option String
  productId : Option String
  activation_token : Option Token
deriving Repr, DecidableEq

structure VLicInfo where
  license_type : String
  product_id : String
deriving Repr, DecidableEq

structure VerifyResult where
  status : Nat
  valid : Bool
  licenseMsg : String
  error : Option String
  email : Option String
  license_info : Option VLicInfo
  offline_expiry : Option Nat
deriving Repr, DecidableEq

/-- A failure response of the verify handler. -/
def verFail (st : Nat) (msg : String) (err : Option String) : VerifyResult :=
  { status := st, valid := false, licenseMsg := msg, error := err,
    email := none, license_info := none, offline_expiry := none }

/-- Model of the verify handler at `src/pages/api/verify.ts` (the version
importing the db and license utilities; POST path). Note that it never reads
the `activations` table: after the oracle and the refunded-licenses check it
answers from the key alone. -/
def verifyHandler (env : Env) (req : VerifyRequest) (oracle : PayhipResp)
    (db : DB) (now : Nat) : VerifyResult :=
  if ¬ jsTruthy req.licenseKey then
    verFail 400 "Missing or invalid key format" none
  else if jsTruthy req.productId ∧ trimStr ((req.productId).getD "") = "" then
    verFail 400 "Invalid product ID format" none
  else
    let cleanKey := trimStr ((req.licenseKey).getD "")
    if 50 < cleanKey.length then verFail 400 "Key too long" none
    else
      let selected : Option Product :=
        if jsTruthy req.productId then findProduct ((req.productId).getD "")
        else
          match findProduct DEFAULT_PRODUCT_ID with
          | some p => some p
          | none => PRODUCTS.head?
      match selected with
      | none =>
        if jsTruthy req.productId then verFail 400 "Invalid product ID" none
        else verFail 500 "No products configured" none
      | some prod =>
        if ¬ keyPatternOk cleanKey then
          verFail 400 "Invalid characters in key" none
        else if ¬ jsTruthy env.payhipApiKey then
          verFail 500 "Server configuration error" none
        else if ¬ oracleValid oracle then
          verFail 200
            (jsOrD oracle.message
              ("License not found or invalid for " ++ prod.name)) none
        else
          match latestRefund db cleanKey with
          | some r =>
            verFail 200 (revokedMsg r.reason) (some "LICENSE_REVOKED")
          | none =>
            let licenseType := getLicenseTypeFromKey cleanKey prod.id
            let offlineExpiry : Option Nat :=
              match req.activation_token with
              | some t =>
                if (verifyActivationToken t env.jwtSecret now).valid then
                  some (calculateOfflineExpiry env.graceDays now)
                else none
              | none => none
            { status := 200, valid := true,
              licenseMsg := prod.name ++ " license is active",
              error := none,
              email := some (jsOrD oracle.customer_email ""),
              license_info := some { license_type := licenseType,
                                     product_id := prod.id },
              offline_expiry := offlineExpiry }

/-! ### The admin revoke handler (unnamed source file) -/

structure RevokeRequest where
  licenseKey : Option String
  reason : Option String
  email : Option String
  secret : Option String
deriving Repr, DecidableEq

structure RevokeResult where
  status : Nat
  success : Bool
  message : String
  cancelled : Option Nat
deriving Repr, DecidableEq

/-- The admin-secret gate: `!adminSecret || adminSecret !== (ADMIN_SECRET ||
JWT_SECRET)` rejects with 401. -/
def revokeAuthOk (env : Env) (provided : Option String) : Bool :=
  match provided with
  | none => false
  | some p =>
    p ≠ "" &&
      (match jsOr env.adminSecret env.jwtSecret with
       | some r => p == r
       | none => false)

/-- The cascade `UPDATE activations SET status = 'revoked', last_verified_at
= CURRENT_TIMESTAMP WHERE license_key = $1 AND status = 'active'`. -/
def revokeActives (db : DB) (key : String) (now : Nat) : DB :=
  { db with
    activations := db.activations.map fun a =>
      if a.license_key == key && a.status == "active" then
        { a with status := "revoked", last_verified_at := some now }
      else a }

/-- Model of the admin revoke handler (POST path). Returns the JSON response
and the store after the call; `cancelled` is the update's row count. -/
def revokeHandler (env : Env) (req : RevokeRequest) (db : DB) (now : Nat) :
    RevokeResult × DB :=
  if ¬ revokeAuthOk env req.secret then
    ({ status := 401, success := false,
       message := "Unauthorized: Invalid admin secret", cancelled := none }, db)
  else if ¬ jsTruthy req.licenseKey then
    ({ status := 400, success := false,
       message := "License key is required", cancelled := none }, db)
  else if ¬ jsTruthy req.reason then
    ({ status := 400, success := false,
       message := "Reason is required", cancelled := none }, db)
  else
    let cleanKey := upper (trimStr ((req.licenseKey).getD ""))
    if (refundsFor db cleanKey).length > 0 then
      ({ status := 200, success := false,
         message := "License is already revoked/refunded", cancelled := none }, db)
    else
      let db1 : DB :=
        { db with
          refunded := db.refunded ++
            [{ license_key := cleanKey, email := jsOr req.email none,
               reason := req.reason, refunded_at := now }] }
      let cancelled := activeCount db1 cleanKey
      let db2 := revokeActives db1 cleanKey now
      ({ status := 200, success := true,
         message := "License revoked successfully",
         cancelled := some cancelled }, db2)

/-! ### Interleaving model of concurrent activate requests

Per the scheduling model, each activation request is an independent task and
each store query is a blocking suspension point. A task below runs the
device-cap section of the activate handler (the `SELECT ... status='active'`
count, then the limit check followed by the find-or-insert write) as two
atomic steps separated by a suspension point; a schedule chooses which task
performs its next step. This is coarser than the real code (which also
suspends between the find and the insert), so any race exhibited here is a
race the code admits. -/

structure RaceTask where
  key : String
  machine : String
deriving Repr, DecidableEq

/-- Program counter of an in-flight activate task: not yet counted, counted
(holding the count it observed), or finished. -/
inductive TaskPC where
  | ready : TaskPC
  | counted : Nat → TaskPC
  | finished : TaskPC
deriving Repr, DecidableEq

/-- One step of one activate task against the shared store. The first step
performs the active-count read; the second replays the handler's limit check
and find-or-insert write with the (possibly stale) observed count. -/
def taskStep (env : Env) (now : Nat) (t : RaceTask) :
    TaskPC × DB → TaskPC × DB
  | (.ready, db) => (.counted (activeCount db t.key), db)
  | (.counted n, db) =>
    if env.maxActivations ≤ n then (.finished, db)
    else
      match findActivation db t.key t.machine with
      | some a => (.finished, updateActivationRow db a.id env.graceDays now)
      | none =>
        (.finished, insertActivation db t.key DEFAULT_PRODUCT_ID t.machine
          none env.graceDays now)
  | (.finished, db) => (.finished, db)

/-- Configuration of two concurrent activate tasks over the shared store. -/
structure RaceConfig where
  pc₁ : TaskPC
  pc₂ : TaskPC
  db : DB
deriving Repr, DecidableEq

/-- Run a schedule: `false` steps task 1, `true` steps task 2. -/
def runSched (env : Env) (now : Nat) (t₁ t₂ : RaceTask) :
    List Bool → RaceConfig → RaceConfig
  | [], c => c
  | b :: rest, c =>
    let c' :=
      if b then
        let s := taskStep env now t₂ (c.pc₂, c.db)
        { c with pc₂ := s.1, db := s.2 }
      else
        let s := taskStep env now t₁ (c.pc₁, c.db)
        { c with pc₁ := s.1, db := s.2 }
    runSched env now t₁ t₂ rest c'

/-! ### Claims about the key resolver (C5, C6, C10) -/

/-- Claim C5, counterexample: the claim says every key with fewer than 3
dash-segments is classified TRIAL; but `"AB-CD"` has 2 segments and no
`TRIAL-` prefix, and `getLicenseTypeFromKey` classifies it PERSONAL. -/
theorem claim_C5_counterexample :
    (keySegments "AB-CD").length < 3 ∧
    getLicenseTypeFromKey "AB-CD" "photobatchpro" ≠ "TRIAL" ∧
    getLicenseTypeFromKey "AB-CD" "photobatchpro" = "PERSONAL" := by
  refine ⟨by decide, by decide, rfl⟩

/-- Claim C5 (amended): a key with fewer than 3 dash-segments resolves to
TRIAL exactly when it carries the explicit `TRIAL-` prefix, and to PERSONAL
otherwise, for every product. -/
theorem claim_C5_amended (licenseKey productId : String)
    (h : (keySegments licenseKey).length < 3) :
    getLicenseTypeFromKey licenseKey productId =
      if startsTrial licenseKey then "TRIAL" else "PERSONAL" := by
  unfold getLicenseTypeFromKey
  simp [h]

/-- Witness for claim C5 (amended) at the concrete key `"TRIAL-XYZ"`. -/
theorem claim_C5_amended_witness :
    getLicenseTypeFromKey "TRIAL-XYZ" "photobatchpro" =
      if startsTrial "TRIAL-XYZ" then "TRIAL" else "PERSONAL" :=
  claim_C5_amended "TRIAL-XYZ" "photobatchpro" (by decide)

/-- Claim C6: for a key with at least 3 segments the resolver uppercases the
final segment and looks it up in the product's tier table, with any unknown
suffix (or unknown product) falling back to PERSONAL; and the three spec
examples resolve as stated. -/
theorem claim_C6_tier_resolution :
    (∀ licenseKey productId cfg,
      3 ≤ (keySegments licenseKey).length →
      LICENSE_CONFIG productId = some cfg →
      ((lookupType cfg (upper ((keySegments licenseKey).getLastD ""))).isSome →
        getLicenseTypeFromKey licenseKey productId =
          upper ((keySegments licenseKey).getLastD "")) ∧
      (lookupType cfg (upper ((keySegments licenseKey).getLastD "")) = none →
        getLicenseTypeFromKey licenseKey productId = "PERSONAL")) ∧
    getLicenseTypeFromKey "PB-123456-PRO" "photobatchpro" = "PRO" ∧
    getLicenseTypeFromKey "TRIAL-XYZ" "photobatchpro" = "TRIAL" ∧
    getLicenseTypeFromKey "PB-123456-BOGUS" "photobatchpro" = "PERSONAL" := by
  refine ⟨?_, rfl, rfl, rfl⟩
  intro licenseKey productId cfg hlen hcfg
  constructor
  · intro hsome
    obtain ⟨tc, htc⟩ := Option.isSome_iff_exists.mp hsome
    rw [List.getLastD_eq_getLast?] at htc
    unfold getLicenseTypeFromKey
    simp [Nat.not_lt.mpr hlen, hcfg, htc, List.getLastD_eq_getLast?]
  · intro hnone
    rw [List.getLastD_eq_getLast?] at hnone
    unfold getLicenseTypeFromKey
    simp [Nat.not_lt.mpr hlen, hcfg, hnone, List.getLastD_eq_getLast?]

/-- Witness for claim C6 at the concrete key `"VV-789012-LIFETIME"`. -/
theorem claim_C6_witness :
    getLicenseTypeFromKey "VV-789012-LIFETIME" "vehiclevaultpro" =
      upper ((keySegments "VV-789012-LIFETIME").getLastD "") :=
  (claim_C6_tier_resolution.1 "VV-789012-LIFETIME" "vehiclevaultpro"
    vehiclevaultproTypes (by decide) (by decide)).1 (by decide)

/-- Claim C10: `smartcut-pro` and `cutting-optimization-pro` have no
`LICENSE_CONFIG` entry, and for any product without an entry
`getLicenseInfoFromKey` returns a TRIAL license with the photobatchpro basic
feature set for every key, even though `getLicenseTypeFromKey` returns
PERSONAL for keys with at least 3 segments and no `TRIAL-` prefix. -/
theorem claim_C10_unconfigured_products_trial :
    LICENSE_CONFIG "smartcut-pro" = none ∧
    LICENSE_CONFIG "cutting-optimization-pro" = none ∧
    (∀ licenseKey productId,
      LICENSE_CONFIG productId = none →
      getLicenseInfoFromKey licenseKey productId =
        { license_type := "TRIAL", expiry_date := none,
          features := ["basic_rename", "basic_exif", "find_duplicates"],
          product_id := productId } ∧
      (3 ≤ (keySegments licenseKey).length → startsTrial licenseKey = false →
        getLicenseTypeFromKey licenseKey productId = "PERSONAL")) := by
  refine ⟨rfl, rfl, ?_⟩
  intro licenseKey productId hcfg
  constructor
  · unfold getLicenseInfoFromKey
    simp [hcfg]
  · intro hlen _
    unfold getLicenseTypeFromKey
    simp [Nat.not_lt.mpr hlen, hcfg]

/-- Witness for claim C10 at the key `"PB-123456-PRO"` and product
`"smartcut-pro"`. -/
theorem claim_C10_witness :
    getLicenseInfoFromKey "PB-123456-PRO" "smartcut-pro" =
      { license_type := "TRIAL", expiry_date := none,
        features := ["basic_rename", "basic_exif", "find_duplicates"],
        product_id := "smartcut-pro" } ∧
    getLicenseTypeFromKey "PB-123456-PRO" "smartcut-pro" = "PERSONAL" := by
  have h := claim_C10_unconfigured_products_trial.2.2 "PB-123456-PRO"
    "smartcut-pro" (by decide)
  exact ⟨h.1, h.2 (by decide) (by decide)⟩

/-! ### Claims about the token codec (C4, C8) -/

/-- The token `generateActivationToken("PB-123456-PRO", "M1",
"photobatchpro", 30)` produces at time 0 with secret `"secret"`: its payload
carries the custom `expiry` field but no registered `exp` claim. -/
def c4Payload : Payload :=
  { license_key := "PB-123456-PRO", machine_id := "M1",
    product_id := "photobatchpro", expiry := 2592000, iat := 0, exp := none }

def c4Token : Token :=
  { payload := c4Payload, sig := mkSig c4Payload "secret" }

/-- Claim C4 (code bug): `generateActivationToken` stores the deadline in the
custom `expiry` payload field, but `verifyActivationToken` only checks the
registered `exp` claim, which the issuer never sets. So a well-signed,
structurally complete token whose payload `expiry` is one second in the past
still verifies as valid instead of failing with Token expired. -/
theorem claim_C4_token_expiry_bug :
    generateActivationToken "PB-123456-PRO" "M1" "photobatchpro" 30
        (some "secret") 0 = .ok c4Token ∧
    c4Token.payload.expiry < 2592001 ∧
    c4Token.payload.exp = none ∧
    verifyActivationToken c4Token (some "secret") 2592001 =
      { valid := true, payload := some c4Payload, error := none } := by
  refine ⟨rfl, by decide, rfl, by decide⟩

/-- Claim C8, counterexample: an individual verify call with the signing
secret unset returns a per-request error result naming the missing secret,
and an individual issue call throws per-request — the missing-secret
condition is observed per request, not only at startup. -/
theorem claim_C8_counterexample :
    verifyActivationToken c4Token none 0 =
      { valid := false, payload := none,
        error := some "JWT_SECRET not configured" } ∧
    generateActivationToken "PB-123456-PRO" "M1" "photobatchpro" 30 none 0 =
      .error "JWT_SECRET not configured" := by
  exact ⟨rfl, rfl⟩

/-- Claim C8 (amended): absence of JWT_SECRET is surfaced on every individual
call — token issue throws `JWT_SECRET not configured` and token verify
returns an invalid result with that error; there is no startup check. -/
theorem claim_C8_amended (licenseKey machineId productId : String)
    (expiryDays now : Nat) (t : Token) :
    generateActivationToken licenseKey machineId productId expiryDays none now =
      .error "JWT_SECRET not configured" ∧
    verifyActivationToken t none now =
      { valid := false, payload := none,
        error := some "JWT_SECRET not configured" } :=
  ⟨rfl, rfl⟩

/-! ### Helper lemmas about the handlers -/

lemma jsTruthy_of_ne (s : String) (h : s ≠ "") : jsTruthy (some s) = true := by
  simp [jsTruthy, h]

lemma jsTruthy_none : jsTruthy none = false := rfl

/-- With well-formed input and a passing oracle, the first activate handler
rejects a key that has a refunded-licenses row, with LICENSE_REVOKED and no
store change. -/
lemma activateV1_refund_rejects (env : Env) (req : ActivateRequest)
    (oracle : PayhipResp) (db : DB) (now : Nat) (k m : String)
    (r : RefundedLicense)
    (hk : req.licenseKey = some k) (hk0 : k ≠ "")
    (hm : req.machineId = some m) (hm0 : m ≠ "")
    (hfmt : isValidLicenseKeyFormat (upper (trimStr k)) = true)
    (hprod : (findProduct (jsOrD req.productId DEFAULT_PRODUCT_ID)).isSome)
    (hapi : jsTruthy env.payhipApiKey = true)
    (horacle : oracleValid oracle = true)
    (href : latestRefund db (upper (trimStr k)) = some r) :
    activateV1 env req oracle db now =
      (actFail 403 (revokedMsg r.reason) (some "LICENSE_REVOKED"), db) := by
  obtain ⟨prod, hp⟩ := Option.isSome_iff_exists.mp hprod
  unfold activateV1
  simp [hk, jsTruthy_of_ne k hk0, hm, hm0, hfmt, hp, hapi, horacle, href]

/-- Same rejection for the CORS-fix activate handler (whose cleaned key is
only trimmed, not uppercased). -/
lemma activateCors_refund_rejects (env : Env) (req : ActivateRequest)
    (oracle : PayhipResp) (db : DB) (now : Nat) (k m : String)
    (r : RefundedLicense)
    (hk : req.licenseKey = some k) (hk0 : k ≠ "")
    (hm : req.machineId = some m) (hm0 : m ≠ "")
    (hlen : (trimStr k).length ≤ 50)
    (hfmt : isValidLicenseKeyFormat (trimStr k) = true)
    (hprod : (findProduct (jsOrD req.productId DEFAULT_PRODUCT_ID)).isSome)
    (hapi : jsTruthy env.payhipApiKey = true)
    (horacle : oracleValid oracle = true)
    (href : latestRefund db (trimStr k) = some r) :
    activateCors env req oracle db now =
      (actFail 403 (revokedMsg r.reason) (some "LICENSE_REVOKED"), db) := by
  obtain ⟨prod, hp⟩ := Option.isSome_iff_exists.mp hprod
  unfold activateCors
  simp [hk, jsTruthy_of_ne k hk0, hm, hm0, Nat.not_lt.mpr hlen, hfmt, hp, hapi,
    horacle, href]

/-- Same rejection for the verify handler (default-product request). -/
lemma verifyHandler_refund_rejects (env : Env) (req : VerifyRequest)
    (oracle : PayhipResp) (db : DB) (now : Nat) (k : String)
    (r : RefundedLicense)
    (hk : req.licenseKey = some k) (hk0 : k ≠ "")
    (hpid : req.productId = none)
    (hlen : (trimStr k).length ≤ 50)
    (hpat : keyPatternOk (trimStr k) = true)
    (hapi : jsTruthy env.payhipApiKey = true)
    (horacle : oracleValid oracle = true)
    (href : latestRefund db (trimStr k) = some r) :
    verifyHandler env req oracle db now =
      verFail 200 (revokedMsg r.reason) (some "LICENSE_REVOKED") := by
  unfold verifyHandler
  simp [hk, hk0, jsTruthy_of_ne k hk0, hpid, jsTruthy_none, Nat.not_lt.mpr hlen,
    hpat, hapi, horacle, href, findProduct, DEFAULT_PRODUCT_ID, PRODUCTS]

/-- No call of the first activate handler succeeds while the key has a
refunded-licenses row, whatever the input and oracle response. -/
lemma activateV1_no_success_of_refund (env : Env) (req : ActivateRequest)
    (oracle : PayhipResp) (db : DB) (now : Nat)
    (h : (latestRefund db (upper (trimStr ((req.licenseKey).getD "")))).isSome) :
    (activateV1 env req oracle db now).1.success = false := by
  obtain ⟨r, hr⟩ := Option.isSome_iff_exists.mp h
  unfold activateV1
  by_cases h1 : jsTruthy req.licenseKey
  · rcases hm : req.machineId with _ | m
    · simp [h1, hm, actFail]
    · by_cases h2 : m = ""
      · simp [h1, hm, h2, actFail]
      · by_cases h3 : isValidLicenseKeyFormat (upper (trimStr ((req.licenseKey).getD "")))
        · rcases hp : findProduct (jsOrD req.productId DEFAULT_PRODUCT_ID) with _ | prod
          · simp [h1, hm, h2, h3, hp, actFail]
          · by_cases h4 : jsTruthy env.payhipApiKey
            · by_cases h5 : oracleValid oracle
              · simp [h1, hm, h2, h3, hp, h4, h5, hr, actFail]
              · simp [h1, hm, h2, h3, hp, h4, h5, actFail]
            · simp [h1, hm, h2, h3, hp, h4, actFail]
        · simp [h1, hm, h2, h3, actFail]
  · simp [h1, actFail]

/-- No call of the CORS-fix activate handler succeeds while the key has a
refunded-licenses row. -/
lemma activateCors_no_success_of_refund (env : Env) (req : ActivateRequest)
    (oracle : PayhipResp) (db : DB) (now : Nat)
    (h : (latestRefund db (trimStr ((req.licenseKey).getD ""))).isSome) :
    (activateCors env req oracle db now).1.success = false := by
  obtain ⟨r, hr⟩ := Option.isSome_iff_exists.mp h
  unfold activateCors
  by_cases h1 : jsTruthy req.licenseKey
  · rcases hm : req.machineId with _ | m
    · simp [h1, hm, actFail]
    · by_cases h2 : m = ""
      · simp [h1, hm, h2, actFail]
      · by_cases h6 : 50 < (trimStr ((req.licenseKey).getD "")).length
        · simp [h1, hm, h2, h6, actFail]
        · by_cases h3 : isValidLicenseKeyFormat (trimStr ((req.licenseKey).getD ""))
          · rcases hp : findProduct (jsOrD req.productId DEFAULT_PRODUCT_ID) with _ | prod
            · simp [h1, hm, h2, h6, h3, hp, actFail]
            · by_cases h4 : jsTruthy env.payhipApiKey
              · by_cases h5 : oracleValid oracle
                · simp [h1, hm, h2, h6, h3, hp, h4, h5, hr, actFail]
                · simp [h1, hm, h2, h6, h3, hp, h4, h5, actFail]
              · simp [h1, hm, h2, h6, h3, hp, h4, actFail]
          · simp [h1, hm, h2, h6, h3, actFail]
  · simp [h1, actFail]

/-- No call of the verify handler reports valid while the key has a
refunded-licenses row. -/
lemma verifyHandler_no_valid_of_refund (env : Env) (req : VerifyRequest)
    (oracle : PayhipResp) (db : DB) (now : Nat)
    (h : (latestRefund db (trimStr ((req.licenseKey).getD ""))).isSome) :
    (verifyHandler env req oracle db now).valid = false := by
  obtain ⟨r, hr⟩ := Option.isSome_iff_exists.mp h
  unfold verifyHandler
  by_cases h1 : jsTruthy req.licenseKey
  · by_cases h2 : jsTruthy req.productId ∧ trimStr ((req.productId).getD "") = ""
    · simp [h1, h2, verFail]
    · by_cases h6 : 50 < (trimStr ((req.licenseKey).getD "")).length
      · simp [h1, h2, h6, verFail]
      · rcases hsel : (if jsTruthy req.productId then findProduct ((req.productId).getD "")
          else match findProduct DEFAULT_PRODUCT_ID with
               | some p => some p
               | none => PRODUCTS.head?) with _ | prod
        · by_cases hp : jsTruthy req.productId
          · simp [h1, h2, h6, hsel, hp, verFail]
            split <;> rfl
          · simp [h1, h2, h6, hsel, hp, verFail]
        · by_cases h3 : keyPatternOk (trimStr ((req.licenseKey).getD ""))
          · by_cases h4 : jsTruthy env.payhipApiKey
            · by_cases h5 : oracleValid oracle
              · simp [h1, h2, h6, hsel, h3, h4, h5, hr, verFail]
              · simp [h1, h2, h6, hsel, h3, h4, h5, verFail]
            · simp [h1, h2, h6, hsel, h3, h4, verFail]
          · simp [h1, h2, h6, hsel, h3, verFail]
  · simp [h1, verFail]

/-! ### Concrete fixtures used by counterexamples and witnesses -/

def keyT : String := "PB-123456-PRO"

def envT : Env :=
  { payhipApiKey := some "payhip-key", jwtSecret := some "jwt-secret",
    adminSecret := some "admin-secret", maxActivations := 3, graceDays := 30 }

def oracleOkT : PayhipResp :=
  { success := true, data_enabled := none,
    customer_email := some "buyer@example.com", message := none }

def actRowT (i : Nat) (m : String) : Activation :=
  { id := i, license_key := keyT, product_id := "photobatchpro",
    machine_id := m, customer_email := none, activated_at := 0,
    last_verified_at := none, offline_expiry := 2592000, status := "active" }

/-- A store in which `keyT` is at its device cap of 3. -/
def dbCapT : DB :=
  { activations := [actRowT 1 "MACH-A", actRowT 2 "MACH-B", actRowT 3 "MACH-C"],
    refunded := [], nextId := 4 }

def refundT : RefundedLicense :=
  { license_key := keyT, email := none, reason := some "REFUND",
    refunded_at := 500 }

/-- A store in which `keyT` has a revocation record. -/
def dbRefT : DB :=
  { activations := [actRowT 1 "MACH-A"], refunded := [refundT], nextId := 2 }

def reqT : ActivateRequest :=
  { licenseKey := some keyT, productId := some "photobatchpro",
    machineId := some "MACH-A" }

def verReqT : VerifyRequest :=
  { licenseKey := some keyT, productId := none, activation_token := none }

/-! ### Claim C2 — revocation is a permanent veto -/

/-- Claim C2: once a refunded-licenses row exists for a key, every activate
call (both handler versions) and every verify call that reaches the store
layer (well-formed input, passing oracle) is rejected with LICENSE_REVOKED
and leaves the store unchanged; and unconditionally — for every input and
oracle response whatsoever — no activate call succeeds and no verify call
reports valid while the row exists. -/
theorem claim_C2_revocation_permanent_veto :
    (∀ env req oracle db now k m r,
      req.licenseKey = some k → k ≠ "" →
      req.machineId = some m → m ≠ "" →
      isValidLicenseKeyFormat (upper (trimStr k)) = true →
      (findProduct (jsOrD req.productId DEFAULT_PRODUCT_ID)).isSome →
      jsTruthy env.payhipApiKey = true → oracleValid oracle = true →
      latestRefund db (upper (trimStr k)) = some r →
      activateV1 env req oracle db now =
        (actFail 403 (revokedMsg r.reason) (some "LICENSE_REVOKED"), db)) ∧
    (∀ env req oracle db now k m r,
      req.licenseKey = some k → k ≠ "" →
      req.machineId = some m → m ≠ "" →
      (trimStr k).length ≤ 50 →
      isValidLicenseKeyFormat (trimStr k) = true →
      (findProduct (jsOrD req.productId DEFAULT_PRODUCT_ID)).isSome →
      jsTruthy env.payhipApiKey = true → oracleValid oracle = true →
      latestRefund db (trimStr k) = some r →
      activateCors env req oracle db now =
        (actFail 403 (revokedMsg r.reason) (some "LICENSE_REVOKED"), db)) ∧
    (∀ env req oracle db now k r,
      req.licenseKey = some k → k ≠ "" → req.productId = none →
      (trimStr k).length ≤ 50 → keyPatternOk (trimStr k) = true →
      jsTruthy env.payhipApiKey = true → oracleValid oracle = true →
      latestRefund db (trimStr k) = some r →
      verifyHandler env req oracle db now =
        verFail 200 (revokedMsg r.reason) (some "LICENSE_REVOKED")) ∧
    (∀ env req oracle db now,
      (latestRefund db (upper (trimStr ((req.licenseKey).getD "")))).isSome →
      (activateV1 env req oracle db now).1.success = false) ∧
    (∀ env req oracle db now,
      (latestRefund db (trimStr ((req.licenseKey).getD ""))).isSome →
      (activateCors env req oracle db now).1.success = false) ∧
    (∀ env req oracle db now,
      (latestRefund db (trimStr ((req.licenseKey).getD ""))).isSome →
      (verifyHandler env req oracle db now).valid = false) := by
  refine ⟨?_, ?_, ?_, ?_, ?_, ?_⟩
  · intro env req oracle db now k m r hk hk0 hm hm0 hfmt hprod hapi horacle href
    exact activateV1_refund_rejects env req oracle db now k m r hk hk0 hm hm0
      hfmt hprod hapi horacle href
  · intro env req oracle db now k m r hk hk0 hm hm0 hlen hfmt hprod hapi horacle href
    exact activateCors_refund_rejects env req oracle db now k m r hk hk0 hm hm0
      hlen hfmt hprod hapi horacle href
  · intro env req oracle db now k r hk hk0 hpid hlen hpat hapi horacle href
    exact verifyHandler_refund_rejects env req oracle db now k r hk hk0 hpid
      hlen hpat hapi horacle href
  · intro env req oracle db now h
    exact activateV1_no_success_of_refund env req oracle db now h
  · intro env req oracle db now h
    exact activateCors_no_success_of_refund env req oracle db now h
  · intro env req oracle db now h
    exact verifyHandler_no_valid_of_refund env req oracle db now h

/-- Witness for claim C2: with `keyT` revoked in `dbRefT`, an otherwise
well-formed activate call is rejected with LICENSE_REVOKED and a verify call
reports invalid. -/
theorem claim_C2_witness :
    activateV1 envT reqT oracleOkT dbRefT 1000 =
      (actFail 403 (revokedMsg (some "REFUND")) (some "LICENSE_REVOKED"), dbRefT) ∧
    (verifyHandler envT verReqT oracleOkT dbRefT 1000).valid = false := by
  constructor
  · exact claim_C2_revocation_permanent_veto.1 envT reqT oracleOkT dbRefT 1000
      keyT "MACH-A" refundT rfl (by decide) rfl (by decide) (by decide)
      (by decide) rfl rfl (by decide)
  · exact claim_C2_revocation_permanent_veto.2.2.2.2.2 envT verReqT oracleOkT
      dbRefT 1000 (by decide)

/-! ### Claim C3 — what verify actually consults -/

/-- A store with no activation rows at all. -/
def dbNoActT : DB := { activations := [], refunded := [], nextId := 1 }

/-- Claim C3, counterexample: the claim says verify looks up the
(key, device) pair and returns NotActivated when no activation row exists;
but on a store with an empty activations table a well-formed verify call
returns valid with full license info — there is no NotActivated outcome and
no device is even requested. -/
theorem claim_C3_counterexample :
    dbNoActT.activations = [] ∧
    verifyHandler envT verReqT oracleOkT dbNoActT 1000 =
      { status := 200, valid := true,
        licenseMsg := "PhotoBatchPro license is active", error := none,
        email := some "buyer@example.com",
        license_info := some { license_type := "PRO",
                               product_id := "photobatchpro" },
        offline_expiry := none } :=
  ⟨rfl, by decide⟩

/-- Claim C3 (amended): the verify handler never consults the activation
ledger — its result depends only on the refunded-licenses table (part 1);
with well-formed input and a passing oracle it rejects a revoked key with
LICENSE_REVOKED (part 2) and otherwise reports valid with tier info resolved
from the key alone, with no offline expiry unless a token accompanies the
request (part 3). -/
theorem claim_C3_amended :
    (∀ env req oracle db db' now, db.refunded = db'.refunded →
      verifyHandler env req oracle db now =
        verifyHandler env req oracle db' now) ∧
    (∀ env req oracle db now k r,
      req.licenseKey = some k → k ≠ "" → req.productId = none →
      (trimStr k).length ≤ 50 → keyPatternOk (trimStr k) = true →
      jsTruthy env.payhipApiKey = true → oracleValid oracle = true →
      latestRefund db (trimStr k) = some r →
      verifyHandler env req oracle db now =
        verFail 200 (revokedMsg r.reason) (some "LICENSE_REVOKED")) ∧
    (∀ env req oracle db now k,
      req.licenseKey = some k → k ≠ "" → req.productId = none →
      (trimStr k).length ≤ 50 → keyPatternOk (trimStr k) = true →
      jsTruthy env.payhipApiKey = true → oracleValid oracle = true →
      latestRefund db (trimStr k) = none →
      req.activation_token = none →
      verifyHandler env req oracle db now =
        { status := 200, valid := true,
          licenseMsg := "PhotoBatchPro license is active", error := none,
          email := some (jsOrD oracle.customer_email ""),
          license_info := some
            { license_type := getLicenseTypeFromKey (trimStr k) "photobatchpro",
              product_id := "photobatchpro" },
          offline_expiry := none }) := by
  refine ⟨?_, ?_, ?_⟩
  · intro env req oracle db db' now h
    have hL : ∀ key, latestRefund db key = latestRefund db' key := by
      intro key
      unfold latestRefund refundsFor
      rw [h]
    unfold verifyHandler
    simp only [hL]
  · intro env req oracle db now k r hk hk0 hpid hlen hpat hapi horacle href
    exact verifyHandler_refund_rejects env req oracle db now k r hk hk0 hpid
      hlen hpat hapi horacle href
  · intro env req oracle db now k hk hk0 hpid hlen hpat hapi horacle href hat
    unfold verifyHandler
    simp [hk, hk0, jsTruthy_of_ne k hk0, hpid, jsTruthy_none,
      Nat.not_lt.mpr hlen, hpat, hapi, horacle, href, hat, findProduct,
      DEFAULT_PRODUCT_ID, PRODUCTS]

/-- Witness for claim C3 (amended): a verify call against the at-cap store
(which has three Active rows but no refund row) answers valid from the key
alone. -/
theorem claim_C3_amended_witness :
    verifyHandler envT verReqT oracleOkT dbCapT 1000 =
      { status := 200, valid := true,
        licenseMsg := "PhotoBatchPro license is active", error := none,
        email := some (jsOrD oracleOkT.customer_email ""),
        license_info := some
          { license_type := getLicenseTypeFromKey (trimStr keyT) "photobatchpro",
            product_id := "photobatchpro" },
        offline_expiry := none } :=
  claim_C3_amended.2.2 envT verReqT oracleOkT dbCapT 1000 keyT rfl (by decide)
    rfl (by decide) (by decide) rfl rfl (by decide) rfl

/-! ### Claim C1 — re-activation at the device cap -/

/-- Claim C1, counterexample: with the cap reached and the requesting device
(MACH-A) already holding an Active row, the first activate handler rejects
the re-activation with DEVICE_LIMIT_EXCEEDED — its cap count does not
exclude the requesting device — contradicting the claim that re-activation
never sees DeviceLimitExceeded. -/
theorem claim_C1_counterexample :
    envT.maxActivations ≤ activeCount dbCapT keyT ∧
    (findActivation dbCapT keyT "MACH-A").isSome ∧
    (activateV1 envT reqT oracleOkT dbCapT 1000).1.error =
      some "DEVICE_LIMIT_EXCEEDED" ∧
    (activateV1 envT reqT oracleOkT dbCapT 1000).1.success = false ∧
    (activateV1 envT reqT oracleOkT dbCapT 1000).2 = dbCapT :=
  ⟨by decide, by decide, by decide, by decide, by decide⟩

/-- Claim C1 (amended): the claimed behaviour holds only for the CORS-fix
activate handler: at the cap, a request whose machine id is among the key's
Active machine ids is not rejected with DEVICE_LIMIT_EXCEEDED, succeeds,
updates the existing row in place and creates no second ledger row (part 1);
the first activate handler instead counts all Active rows without excluding
the requesting device and rejects any at-cap call — re-activation included —
with DEVICE_LIMIT_EXCEEDED (part 2). -/
theorem claim_C1_amended :
    (∀ env req oracle db now k m a0,
      req.licenseKey = some k → k ≠ "" →
      req.machineId = some m → m ≠ "" →
      (trimStr k).length ≤ 50 →
      isValidLicenseKeyFormat (trimStr k) = true →
      (findProduct (jsOrD req.productId DEFAULT_PRODUCT_ID)).isSome →
      jsTruthy env.payhipApiKey = true → oracleValid oracle = true →
      latestRefund db (trimStr k) = none →
      env.jwtSecret.isSome →
      env.maxActivations ≤ (activeRows db (trimStr k)).length →
      m ∈ ((activeRows db (trimStr k)).map fun a => a.machine_id) →
      findActivation db (trimStr k) m = some a0 →
      (activateCors env req oracle db now).1.success = true ∧
      (activateCors env req oracle db now).1.error = none ∧
      (activateCors env req oracle db now).2 =
        updateActivationRow db a0.id env.graceDays now ∧
      (activateCors env req oracle db now).2.activations.length =
        db.activations.length) ∧
    (∀ env req oracle db now k m,
      req.licenseKey = some k → k ≠ "" →
      req.machineId = some m → m ≠ "" →
      isValidLicenseKeyFormat (upper (trimStr k)) = true →
      (findProduct (jsOrD req.productId DEFAULT_PRODUCT_ID)).isSome →
      jsTruthy env.payhipApiKey = true → oracleValid oracle = true →
      latestRefund db (upper (trimStr k)) = none →
      env.maxActivations ≤ (activeRows db (upper (trimStr k))).length →
      activateV1 env req oracle db now =
        (actFail 403
          ("This license is already activated on " ++
            Nat.repr (activeRows db (upper (trimStr k))).length ++
            " device(s). Maximum is " ++ Nat.repr env.maxActivations ++ ".")
          (some "DEVICE_LIMIT_EXCEEDED"), db)) := by
  constructor
  · intro env req oracle db now k m a0 hk hk0 hm hm0 hlen hfmt hprod hapi
      horacle href hjwt hcap hmem hfind
    obtain ⟨prod, hp⟩ := Option.isSome_iff_exists.mp hprod
    obtain ⟨s, hs⟩ := Option.isSome_iff_exists.mp hjwt
    have hcors : activateCors env req oracle db now =
        ({ status := 200, success := true,
           message := "License activated successfully", error := none,
           license_info := some (getLicenseInfoFromKey (trimStr k)
             (jsOrD req.productId DEFAULT_PRODUCT_ID)),
           activation_token := some
             { payload :=
                 { license_key := trimStr k, machine_id := m,
                   product_id := jsOrD req.productId DEFAULT_PRODUCT_ID,
                   expiry := now + env.graceDays * 24 * 60 * 60,
                   iat := now, exp := none },
               sig := mkSig
                 { license_key := trimStr k, machine_id := m,
                   product_id := jsOrD req.productId DEFAULT_PRODUCT_ID,
                   expiry := now + env.graceDays * 24 * 60 * 60,
                   iat := now, exp := none } s },
           offline_expiry := some (calculateOfflineExpiry env.graceDays now) },
         updateActivationRow db a0.id env.graceDays now) := by
      unfold activateCors
      simp [hk, jsTruthy_of_ne k hk0, hm, hm0, Nat.not_lt.mpr hlen, hfmt, hp,
        hapi, horacle, href, hmem, hfind, hs, generateActivationToken]
    refine ⟨by rw [hcors], by rw [hcors], by rw [hcors], ?_⟩
    rw [hcors]
    unfold updateActivationRow
    simp
  · intro env req oracle db now k m hk hk0 hm hm0 hfmt hprod hapi horacle
      href hcap
    obtain ⟨prod, hp⟩ := Option.isSome_iff_exists.mp hprod
    unfold activateV1
    simp [hk, jsTruthy_of_ne k hk0, hm, hm0, hfmt, hp, hapi, horacle, href,
      hcap]

/-- Witness for claim C1 (amended): re-activating MACH-A at the cap through
the CORS-fix handler succeeds without a new row. -/
theorem claim_C1_amended_witness :
    (activateCors envT reqT oracleOkT dbCapT 1000).1.success = true ∧
    (activateCors envT reqT oracleOkT dbCapT 1000).1.error = none ∧
    (activateCors envT reqT oracleOkT dbCapT 1000).2 =
      updateActivationRow dbCapT (actRowT 1 "MACH-A").id envT.graceDays 1000 ∧
    (activateCors envT reqT oracleOkT dbCapT 1000).2.activations.length =
      dbCapT.activations.length :=
  claim_C1_amended.1 envT reqT oracleOkT dbCapT 1000 keyT "MACH-A"
    (actRowT 1 "MACH-A") rfl (by decide) rfl (by decide) (by decide)
    (by decide) (by decide) rfl rfl (by decide) (by decide) (by decide)
    (by decide) (by decide)

/-! ### Claim C7 — revoke idempotency and cascade -/

/-- Claim C7: an authorized, well-formed revoke call is idempotent — if a
refunded-licenses row already exists for the key it answers HTTP 200 with the
"already revoked/refunded" message, inserts nothing and modifies no
activation row (part 1); otherwise it inserts exactly one revocation record,
transitions every currently-Active activation of the key to revoked stamping
`last_verified_at`, leaves every other row unchanged, and returns the count
of cascaded activations (part 2). -/
theorem claim_C7_revoke_idempotent_cascade
    (env : Env) (req : RevokeRequest) (db : DB) (now : Nat) (k rsn : String)
    (hauth : revokeAuthOk env req.secret = true)
    (hk : req.licenseKey = some k) (hk0 : k ≠ "")
    (hrsn : req.reason = some rsn) (hrsn0 : rsn ≠ "") :
    ((refundsFor db (upper (trimStr k)) ≠ [] →
      revokeHandler env req db now =
        ({ status := 200, success := false,
           message := "License is already revoked/refunded",
           cancelled := none }, db)) ∧
     (refundsFor db (upper (trimStr k)) = [] →
      revokeHandler env req db now =
        ({ status := 200, success := true,
           message := "License revoked successfully",
           cancelled := some (activeCount db (upper (trimStr k))) },
         { activations := db.activations.map fun a =>
             if a.license_key == upper (trimStr k) && a.status == "active" then
               { a with status := "revoked", last_verified_at := some now }
             else a,
           refunded := db.refunded ++
             [{ license_key := upper (trimStr k), email := jsOr req.email none,
                reason := some rsn, refunded_at := now }],
           nextId := db.nextId }))) := by
  constructor
  · intro href
    unfold revokeHandler
    simp [hauth, hk, jsTruthy_of_ne k hk0, hrsn, jsTruthy_of_ne rsn hrsn0,
      List.length_pos.mpr href]
  · intro href
    unfold revokeHandler
    simp [hauth, hk, jsTruthy_of_ne k hk0, hrsn, jsTruthy_of_ne rsn hrsn0,
      href, revokeActives, activeCount, activeRows]

def revReqT : RevokeRequest :=
  { licenseKey := some keyT, reason := some "REFUND", email := none,
    secret := some "admin-secret" }

/-- Witness for claim C7: revoking `keyT` on the at-cap store (no prior
refund) cascades all three Active rows and reports a count of 3. -/
theorem claim_C7_witness :
    revokeHandler envT revReqT dbCapT 1000 =
      ({ status := 200, success := true,
         message := "License revoked successfully",
         cancelled := some (activeCount dbCapT (upper (trimStr keyT))) },
       { activations := dbCapT.activations.map fun a =>
           if a.license_key == upper (trimStr keyT) && a.status == "active" then
             { a with status := "revoked", last_verified_at := some 1000 }
           else a,
         refunded := dbCapT.refunded ++
           [{ license_key := upper (trimStr keyT), email := jsOr revReqT.email none,
              reason := some "REFUND", refunded_at := 1000 }],
         nextId := dbCapT.nextId }) :=
  (claim_C7_revoke_idempotent_cascade envT revReqT dbCapT 1000 keyT "REFUND"
    (by decide) rfl (by decide) rfl (by decide)).2 (by decide)

/-! ### Claim C9 — the device cap under concurrent activations -/

/-- A store in which `keyT` has 2 Active rows, one below the cap of 3. -/
def dbTwoT : DB :=
  { activations := [actRowT 1 "MACH-A", actRowT 2 "MACH-B"],
    refunded := [], nextId := 3 }

/-- Inserting an activation row for a key raises its Active count by one. -/
lemma activeCount_insert (db : DB) (k pid m : String) (e : Option String)
    (g now : Nat) :
    activeCount (insertActivation db k pid m e g now) k =
      activeCount db k + 1 := by
  unfold activeCount activeRows insertActivation
  simp [List.filter_append]

/-- Inserting a row for a different machine does not change the
(key, machine) lookup. -/
lemma findActivation_insert_of_ne (db : DB) (k pid m k' m' : String)
    (e : Option String) (g now : Nat) (hne : m ≠ m') :
    findActivation (insertActivation db k pid m e g now) k' m' =
      findActivation db k' m' := by
  unfold findActivation insertActivation
  simp [List.filter_append, hne]

/-- Claim C9, counterexample: with cap 3 and 2 Active rows, two concurrent
activate tasks for fresh devices MACH-C and MACH-D, interleaved so both
count-reads precede both writes, leave 4 Active rows — the cap is exceeded,
refuting the claim that the count never exceeds the cap under interleaving. -/
theorem claim_C9_counterexample :
    envT.maxActivations = 3 ∧
    activeCount dbTwoT keyT = 2 ∧
    activeCount (runSched envT 1000 { key := keyT, machine := "MACH-C" }
        { key := keyT, machine := "MACH-D" } [false, true, false, true]
        { pc₁ := .ready, pc₂ := .ready, db := dbTwoT }).db keyT = 4 :=
  ⟨rfl, by decide, by decide⟩

/-- Claim C9 (amended): the check-then-insert of the activate handler is not
serialized, so whenever a key is one below its cap, two concurrent
activations on distinct fresh devices whose count-reads both precede their
inserts both pass the check and both insert, leaving cap + 1 Active rows —
strictly more than the cap. The `unique_machine_license` constraint (modelled
by the per-(key, machine) lookup the tasks replay) does not prevent this,
since the two devices are distinct. -/
theorem claim_C9_amended (env : Env) (db : DB) (k m₁ m₂ : String) (now : Nat)
    (hmax : env.maxActivations = activeCount db k + 1)
    (hf1 : findActivation db k m₁ = none)
    (hf2 : findActivation db k m₂ = none)
    (hne : m₁ ≠ m₂) :
    activeCount (runSched env now { key := k, machine := m₁ }
        { key := k, machine := m₂ } [false, true, false, true]
        { pc₁ := .ready, pc₂ := .ready, db := db }).db k =
      env.maxActivations + 1 ∧
    env.maxActivations <
      activeCount (runSched env now { key := k, machine := m₁ }
        { key := k, machine := m₂ } [false, true, false, true]
        { pc₁ := .ready, pc₂ := .ready, db := db }).db k := by
  have hlt : ¬ env.maxActivations ≤ activeCount db k := by omega
  have hrun : (runSched env now { key := k, machine := m₁ }
      { key := k, machine := m₂ } [false, true, false, true]
      { pc₁ := .ready, pc₂ := .ready, db := db }).db =
      insertActivation (insertActivation db k DEFAULT_PRODUCT_ID m₁ none
        env.graceDays now) k DEFAULT_PRODUCT_ID m₂ none env.graceDays now := by
    simp [runSched, taskStep, hlt, hf1,
      findActivation_insert_of_ne db k DEFAULT_PRODUCT_ID m₁ k m₂ none
        env.graceDays now hne, hf2]
  rw [hrun, activeCount_insert, activeCount_insert]
  omega

/-- Witness for claim C9 (amended) on the concrete one-below-cap store. -/
theorem claim_C9_amended_witness :
    activeCount (runSched envT 1000 { key := keyT, machine := "MACH-C" }
        { key := keyT, machine := "MACH-D" } [false, true, false, true]
        { pc₁ := .ready, pc₂ := .ready, db := dbTwoT }).db keyT =
      envT.maxActivations + 1 ∧
    envT.maxActivations <
      activeCount (runSched envT 1000 { key := keyT, machine := "MACH-C" }
          { key := keyT, machine := "MACH-D" } [false, true, false, true]
          { pc₁ := .ready, pc₂ := .ready, db := dbTwoT }).db keyT :=
  claim_C9_amended envT dbTwoT keyT "MACH-C" "MACH-D" 1000 (by decide)
    (by decide) (by decide) (by decide)

end SmartCut
